import Mathlib

/-!
Verification of the session-routing and tool layer of the MCP calculator
server (`src/server.ts`).

The server keeps a process-wide map `transports` from session identifier to
transport instance. `POST /mcp` either reuses an existing transport (header
`mcp-session-id` present and bound), creates a new one (header absent and the
body is an initialization request), or rejects with a JSON-RPC error envelope.
`GET /mcp` and `DELETE /mcp` go through `handleSessionRequest`, which rejects
with HTTP 400 unless the header names a bound session. The tools `calculate`
and `convert` are modelled as pure functions over rationals.

Transports are modelled as opaque instance identifiers (`Nat`); the store is an
association list with unique keys, matching a JavaScript object keyed by
string. JavaScript truthiness of the header string (absent or empty string is
falsy) is modelled by `truthy`.

Both `transports` and `conversions` are plain object literals, so a property
read falls back to `Object.prototype` when the key names no own entry, and the
inherited members (`toString`, `constructor`, ...) are truthy. `lookupStore`
and `conversions` below model the own-entry part, which is the part the
bound-session and own-table-entry claims are about; `jsIndex`, `handlePostJs`,
`handleSessionRequestJs` and `convertJs` model the full JavaScript read,
which diverges from the own-entry idealization exactly on client-supplied
keys naming inherited members.
-/

namespace McpCalc

abbrev SessionId := String
abbrev Transport := Nat

/-- The `transports` map of `server.ts`: session id to transport instance. -/
abbrev Store := List (SessionId × Transport)

/-- The own entry bound to `id` in `transports`: first (and, with unique
keys, only) binding. This is only the own-property part of the JavaScript
read `transports[id]`; the inherited `Object.prototype` members that the
full read can also hit are handled by `jsIndex` below. -/
def lookupStore (store : Store) (id : SessionId) : Option Transport :=
  match store with
  | [] => none
  | (k, t) :: rest => if k = id then some t else lookupStore rest id

/-- `transports[id] = t`: JavaScript object assignment replaces any previous
binding of the same key. -/
def insertStore (store : Store) (id : SessionId) (t : Transport) : Store :=
  (id, t) :: store.filter (fun p => p.1 ≠ id)

/-- `delete transports[id]`: removes the binding if present, no-op otherwise. -/
def removeStore (store : Store) (id : SessionId) : Store :=
  store.filter (fun p => p.1 ≠ id)

/-- JavaScript truthiness of `req.headers[..] as string | undefined`:
`undefined` and the empty string are falsy. -/
def truthy : Option String → Bool
  | none => false
  | some s => s ≠ ""

/-- The `onsessioninitialized` callback (server.ts:29-32):
`transports[sessionId] = transport`, with no presence check. -/
def registerSession (store : Store) (id : SessionId) (t : Transport) : Store :=
  insertStore store id t

/-- The `transport.onclose` callback (server.ts:36-40):
`if (transport.sessionId) delete transports[transport.sessionId]`. -/
def onClose (store : Store) (transportSessionId : Option SessionId) : Store :=
  match transportSessionId with
  | some id => if id = "" then store else removeStore store id
  | none => store

/-- The JSON-RPC error object sent by the invalid-request branch of
`POST /mcp` (server.ts:221-228). -/
structure ErrorEnvelope where
  code : Int
  message : String
deriving DecidableEq

def rejectEnvelope : ErrorEnvelope :=
  ⟨-32000, "Bad Request: No valid session ID provided"⟩

/-- Outcome of one `POST /mcp` call: the body is handed to an existing
transport, to a newly constructed one, or the call is rejected with a 400
JSON-RPC error and no transport sees it. -/
inductive PostOutcome
  | handled (t : Transport)
  | handledNew (t : Transport)
  | rejected (e : ErrorEnvelope)
deriving DecidableEq

structure PostResult where
  outcome : PostOutcome
  store : Store
deriving DecidableEq

/-- The `app.post` handler (server.ts:17-234). `header` is the
`mcp-session-id` header, `isInit` the value of `isInitializeRequest(req.body)`.
Constructing a transport and letting the SDK initialize it registers a fresh
identifier `freshId` (generated by `randomUUID`) for the new instance `newT`
via `registerSession`; this models `onsessioninitialized` firing during the
handling of the initialization request. -/
def handlePost (store : Store) (header : Option String) (isInit : Bool)
    (freshId : SessionId) (newT : Transport) : PostResult :=
  match truthy header, lookupStore store (header.getD "") with
  | true, some t => ⟨.handled t, store⟩
  | _, _ =>
      if !truthy header && isInit then
        ⟨.handledNew newT, registerSession store freshId newT⟩
      else
        ⟨.rejected rejectEnvelope, store⟩

/-- Outcome of a `GET /mcp` or `DELETE /mcp` call. -/
inductive SessionReqOutcome
  | invalid (status : Nat) (body : String)
  | delegated (t : Transport)
deriving DecidableEq

/-- `handleSessionRequest` (server.ts:237-246):
`if (!sessionId || !transports[sessionId]) res.status(400).send(..)`,
otherwise the bound transport handles the request. -/
def handleSessionRequest (store : Store) (header : Option String) :
    SessionReqOutcome :=
  match header with
  | none => .invalid 400 "Invalid or missing session ID"
  | some sid =>
      if sid = "" then .invalid 400 "Invalid or missing session ID"
      else
        match lookupStore store sid with
        | none => .invalid 400 "Invalid or missing session ID"
        | some t => .delegated t

/-- The members every plain object literal inherits from `Object.prototype`
in Node: function members plus the legacy accessor members. Reading any of
these names on `transports` yields a truthy value that is not a transport. -/
def objectProtoProps : List String :=
  ["constructor", "hasOwnProperty", "isPrototypeOf", "propertyIsEnumerable",
    "toLocaleString", "toString", "valueOf", "__defineGetter__",
    "__defineSetter__", "__lookupGetter__", "__lookupSetter__", "__proto__"]

/-- Result of the JavaScript property read `transports[key]`: an own entry
(an actual transport), a truthy inherited `Object.prototype` member, or
`undefined`. -/
inductive JsValue
  | transport (t : Transport)
  | inherited
  | undef
deriving DecidableEq

def jsIndex (store : Store) (key : String) : JsValue :=
  match lookupStore store key with
  | some t => .transport t
  | none => if key ∈ objectProtoProps then .inherited else .undef

def JsValue.truthy : JsValue → Bool
  | .undef => false
  | _ => true

inductive PostOutcomeJs
  | handled (t : Transport)
  | handledNew (t : Transport)
  | rejected (e : ErrorEnvelope)
  | typeErrorCrash
deriving DecidableEq

/-- `app.post` (server.ts:17-234) with the full JavaScript read: when the
header names an inherited `Object.prototype` member of `transports`, the
truthiness test `sessionId && transports[sessionId]` (server.ts:22) passes,
the reuse branch runs, and `transport.handleRequest` (server.ts:233) is
called on a value that has no such method — a TypeError inside the handler,
and no response envelope is sent. -/
def handlePostJs (store : Store) (header : Option String) (isInit : Bool)
    (freshId : SessionId) (newT : Transport) : PostOutcomeJs × Store :=
  if truthy header && (jsIndex store (header.getD "")).truthy then
    match jsIndex store (header.getD "") with
    | .transport t => (.handled t, store)
    | _ => (.typeErrorCrash, store)
  else if !truthy header && isInit then
    (.handledNew newT, registerSession store freshId newT)
  else
    (.rejected rejectEnvelope, store)

inductive SessionReqOutcomeJs
  | invalid (status : Nat) (body : String)
  | delegated (t : Transport)
  | typeErrorCrash
deriving DecidableEq

/-- `handleSessionRequest` (server.ts:237-246) with the full JavaScript
read: for a header naming an inherited member, `!transports[sessionId]` is
false, the 400 branch is skipped, and `transport.handleRequest` TypeErrors
on the inherited value. -/
def handleSessionRequestJs (store : Store) (header : Option String) :
    SessionReqOutcomeJs :=
  match header with
  | none => .invalid 400 "Invalid or missing session ID"
  | some sid =>
      if sid = "" then .invalid 400 "Invalid or missing session ID"
      else
        match jsIndex store sid with
        | .undef => .invalid 400 "Invalid or missing session ID"
        | .transport t => .delegated t
        | .inherited => .typeErrorCrash

/-- A store has at most one binding per identifier. -/
def UniqueKeys (store : Store) : Prop :=
  store.Pairwise (fun a b => a.1 ≠ b.1)

/-! ### Store lemmas -/

theorem lookupStore_insert_self (store : Store) (id : SessionId)
    (t : Transport) : lookupStore (insertStore store id t) id = some t := by
  simp [insertStore, lookupStore]

theorem removeStore_of_lookup_none (store : Store) (id : SessionId)
    (h : lookupStore store id = none) : removeStore store id = store := by
  induction store with
  | nil => rfl
  | cons p rest ih =>
      obtain ⟨k, t⟩ := p
      by_cases hk : k = id
      · simp [lookupStore, hk] at h
      · simp [lookupStore, hk] at h
        simp [removeStore, hk] at ih ⊢
        exact ih h

theorem removeStore_idem (store : Store) (id : SessionId) :
    removeStore (removeStore store id) id = removeStore store id := by
  simp [removeStore, List.filter_filter]

theorem lookupStore_remove_self (store : Store) (id : SessionId) :
    lookupStore (removeStore store id) id = none := by
  induction store with
  | nil => rfl
  | cons p rest ih =>
      obtain ⟨k, t⟩ := p
      by_cases hk : k = id
      · simpa [removeStore, hk] using ih
      · simpa [removeStore, lookupStore, hk] using ih

theorem uniqueKeys_insert (store : Store) (id : SessionId) (t : Transport)
    (h : UniqueKeys store) : UniqueKeys (insertStore store id t) := by
  unfold UniqueKeys insertStore
  refine List.Pairwise.cons ?_ (h.filter _)
  intro b hb
  have h2 : b.1 ≠ id := by simpa using List.of_mem_filter hb
  exact h2.symm

/-! ### Claims about the router -/

/-- C1. `POST /mcp`: a present and bound session identifier hands the body to
the existing transport and constructs nothing new; an absent identifier with
an initialization body constructs a new transport, registers it under the
freshly generated identifier, and hands it the body. -/
theorem post_continue_and_initiate (store : Store) (header : Option String)
    (isInit : Bool) (freshId : SessionId) (newT : Transport) :
    (∀ sid t, header = some sid → sid ≠ "" → lookupStore store sid = some t →
      handlePost store header isInit freshId newT = ⟨.handled t, store⟩) ∧
    (header = none → isInit = true →
      handlePost store header isInit freshId newT =
        ⟨.handledNew newT, registerSession store freshId newT⟩ ∧
      lookupStore (registerSession store freshId newT) freshId = some newT) :=
  by
  constructor
  · intro sid t hh hne hl
    subst hh
    simp [handlePost, truthy, hne, hl]
  · intro hh hi
    subst hh hi
    exact ⟨by simp [handlePost, truthy], lookupStore_insert_self _ _ _⟩

theorem post_continue_and_initiate_witness :
    handlePost [("abc", 5)] (some "abc") false "f1" 7 =
      ⟨.handled 5, [("abc", 5)]⟩ ∧
    handlePost [("abc", 5)] none true "f1" 7 =
      ⟨.handledNew 7, registerSession [("abc", 5)] "f1" 7⟩ := by
  refine ⟨?_, ?_⟩
  · exact (post_continue_and_initiate [("abc", 5)] (some "abc") false "f1"
      7).1 "abc" 5 rfl (by decide) (by decide)
  · exact ((post_continue_and_initiate [("abc", 5)] none true "f1" 7).2 rfl
      rfl).1

/-- C2 fails on the code: the present but unbound identifier "toString"
names an inherited `Object.prototype` member, so the truthiness test of
server.ts:22 passes, the reuse branch runs, and `transport.handleRequest`
throws a TypeError on the inherited function — the -32000 envelope is never
sent. The store is unchanged, but not for the claimed reason. -/
theorem post_unbound_proto_key_crashes :
    lookupStore [] "toString" = none ∧
    handlePostJs [] (some "toString") false "f1" 7 = (.typeErrorCrash, []) ∧
    (handlePostJs [] (some "toString") false "f1" 7).1 ≠
      .rejected ⟨-32000, "Bad Request: No valid session ID provided"⟩ := by
  decide

/-- C3 counterexample. The claim says registration checks for a pre-existing
binding and reports a Conflict instead of rebinding. The code's
`onsessioninitialized` callback runs `transports[sessionId] = transport`
unconditionally: registering instance `2` under an identifier already bound
to instance `1` silently replaces the binding, and no Conflict outcome exists
in `registerSession` at all. -/
theorem register_rebinds_counterexample :
    lookupStore [("s", 1)] "s" = some 1 ∧
    lookupStore (registerSession [("s", 1)] "s" 2) "s" = some 2 ∧
    registerSession [("s", 1)] "s" 2 ≠ [("s", 1)] := by
  refine ⟨by decide, by decide, by decide⟩

/-- C3 amended. Registration performs no presence check and reports no
Conflict: it unconditionally binds the identifier to the new instance,
replacing any previous binding for the same identifier. The map structure
still guarantees at most one binding per identifier at any time: unique keys
are preserved by registration. -/
theorem register_overwrites_keeps_unique (store : Store) (id : SessionId)
    (t : Transport) (h : UniqueKeys store) :
    lookupStore (registerSession store id t) id = some t ∧
    UniqueKeys (registerSession store id t) :=
  ⟨lookupStore_insert_self store id t, uniqueKeys_insert store id t h⟩

theorem register_overwrites_keeps_unique_witness :
    lookupStore (registerSession [("a", 1)] "s" 2) "s" = some 2 ∧
    UniqueKeys (registerSession [("a", 1)] "s" 2) :=
  register_overwrites_keeps_unique [("a", 1)] "s" 2
    (by unfold UniqueKeys; decide)

/-- C4 fails on the code at its never-issued-identifier clause. The removal
half is right: `onclose` removal of an absent identifier is a no-op and
double close changes nothing (delete only touches own keys). But a DELETE
for the never-issued identifier "toString" does not get the invalid-session
rejection an ordinary unknown identifier gets: the truthiness test of
server.ts:239 passes via `Object.prototype` and `transport.handleRequest`
throws a TypeError. -/
theorem delete_never_issued_proto_key_crashes :
    onClose [("a", 1)] (some "b") = [("a", 1)] ∧
    onClose (onClose [("s", 4)] (some "s")) (some "s") =
      onClose [("s", 4)] (some "s") ∧
    handleSessionRequestJs [] (some "zzz") =
      .invalid 400 "Invalid or missing session ID" ∧
    handleSessionRequestJs [] (some "toString") =
      .typeErrorCrash := by
  decide

/-- C5 fails on the code: the identifier "toString" is not bound in the
store, so the claimed biconditional demands the 400 answer, yet the GET and
DELETE handler does not send it — `!transports[sessionId]` at server.ts:239
is false for the inherited `Object.prototype.toString`, the 400 branch is
skipped, and `transport.handleRequest` TypeErrors. A bound identifier is
still delegated to its own transport, shown here next to the failure. -/
theorem session_request_proto_key_breaks_iff :
    lookupStore [] "toString" = none ∧
    handleSessionRequestJs [] (some "toString") ≠
      .invalid 400 "Invalid or missing session ID" ∧
    handleSessionRequestJs [] (some "toString") = .typeErrorCrash ∧
    handleSessionRequestJs [("a", 3)] (some "a") = .delegated 3 := by
  decide

/-! ### Tool layer

JavaScript numbers are modelled as exact fractions of integers (`Frac`),
with `Frac.val` the rational value they denote. All tool computations stay
in integer arithmetic, matching the exact outcome of the double-precision
computations of the source at every input exercised by the claims. -/

structure Frac where
  num : Int
  den : Int
deriving DecidableEq

def Frac.val (f : Frac) : ℚ := (f.num : ℚ) / (f.den : ℚ)

def Frac.ofInt (n : Int) : Frac := ⟨n, 1⟩

def Frac.add (a b : Frac) : Frac :=
  ⟨a.num * b.den + b.num * a.den, a.den * b.den⟩

def Frac.sub (a b : Frac) : Frac :=
  ⟨a.num * b.den - b.num * a.den, a.den * b.den⟩

def Frac.mul (a b : Frac) : Frac := ⟨a.num * b.num, a.den * b.den⟩

def Frac.neg (a : Frac) : Frac := ⟨-a.num, a.den⟩

def Frac.div (a b : Frac) : Frac := ⟨a.num * b.den, a.den * b.num⟩

/-- How JavaScript prints the numbers produced by the tools: integers print
with no decimal point. Only integer-valued results are exercised by the
claims. -/
def Frac.repr (f : Frac) : String :=
  if f.den ≠ 0 && f.num % f.den = 0 then toString (f.num / f.den)
  else toString f.num ++ "/" ++ toString f.den

/-- Result of one tool invocation: a single text content item, successful or
an error text (the handlers of server.ts always return content, never
throw). -/
inductive ToolResult
  | ok (text : String)
  | error (text : String)
deriving DecidableEq

/-! #### The calculate tool (server.ts:86-104) -/

/-- The character class of the regex `[^-()*+/0-9.]` (server.ts:94): the
characters that survive the replacement. -/
def allowedChar (c : Char) : Bool :=
  c = '-' || c = '(' || c = ')' || c = '*' || c = '+' || c = '/' ||
    ('0' ≤ c && c ≤ '9') || c = '.'

/-- `expression.replace(/[^-()*+/0-9.]/g, '')`: every character outside the
class is removed. -/
def sanitize (s : String) : String := String.mk (s.data.filter allowedChar)

/-- Tokens of the arithmetic fragment that the sanitized string can spell. -/
inductive Tok
  | num (f : Frac)
  | plus
  | minus
  | star
  | slash
  | lparen
  | rparen
deriving DecidableEq

def isDigitChar (c : Char) : Bool := '0' ≤ c && c ≤ '9'

def natOfDigits (ds : List Char) : ℕ :=
  ds.foldl (fun n c => 10 * n + (c.toNat - 48)) 0

/-- Numeric literal `ds . fs` as an exact fraction. -/
def fracOfParts (ds fs : List Char) : Frac :=
  ⟨(natOfDigits ds * 10 ^ fs.length + natOfDigits fs : ℕ), (10 ^ fs.length : ℕ)⟩

/-- Lexer for the sanitized expression string, modelling the JavaScript
tokenizer on the surviving characters: single-character operators and
parentheses, and numeric literals `digits [. digits]` / `. digits` (a lone
dot or a second dot inside one literal is a syntax error). Fuel bounds the
recursion; one unit per consumed character suffices. -/
def lexTokens : ℕ → List Char → Option (List Tok)
  | 0, _ => none
  | _ + 1, [] => some []
  | fuel + 1, c :: cs =>
    if c = '+' then (lexTokens fuel cs).map (Tok.plus :: ·)
    else if c = '-' then (lexTokens fuel cs).map (Tok.minus :: ·)
    else if c = '*' then (lexTokens fuel cs).map (Tok.star :: ·)
    else if c = '/' then (lexTokens fuel cs).map (Tok.slash :: ·)
    else if c = '(' then (lexTokens fuel cs).map (Tok.lparen :: ·)
    else if c = ')' then (lexTokens fuel cs).map (Tok.rparen :: ·)
    else if isDigitChar c || c = '.' then
      let ds := (c :: cs).takeWhile isDigitChar
      let rest1 := (c :: cs).dropWhile isDigitChar
      match rest1 with
      | '.' :: rest2 =>
          let fs := rest2.takeWhile isDigitChar
          let rest3 := rest2.dropWhile isDigitChar
          if ds.isEmpty && fs.isEmpty then none
          else if rest3.headD ' ' = '.' then none
          else (lexTokens fuel rest3).map (Tok.num (fracOfParts ds fs) :: ·)
      | _ => (lexTokens fuel rest1).map (Tok.num (fracOfParts ds []) :: ·)
    else none

/-! Recursive-descent evaluator for the JavaScript arithmetic grammar on the
sanitized characters: `+ -` at the lowest precedence, `* /` binding tighter,
unary `+ -`, and parentheses; all left-associative. Division whose divisor
is zero yields a non-finite JavaScript value and is outside the rational
model (`none`); no claim exercises it. Fuel decreases on every call. -/

mutual
def parseExprF : ℕ → List Tok → Option (Frac × List Tok)
  | 0, _ => none
  | fuel + 1, ts =>
    match parseTermF fuel ts with
    | some (v, rest) => parseExprTail fuel v rest
    | none => none
def parseExprTail : ℕ → Frac → List Tok → Option (Frac × List Tok)
  | 0, _, _ => none
  | fuel + 1, acc, Tok.plus :: ts =>
    match parseTermF fuel ts with
    | some (v, rest) => parseExprTail fuel (acc.add v) rest
    | none => none
  | fuel + 1, acc, Tok.minus :: ts =>
    match parseTermF fuel ts with
    | some (v, rest) => parseExprTail fuel (acc.sub v) rest
    | none => none
  | _ + 1, acc, ts => some (acc, ts)
def parseTermF : ℕ → List Tok → Option (Frac × List Tok)
  | 0, _ => none
  | fuel + 1, ts =>
    match parseFactorF fuel ts with
    | some (v, rest) => parseTermTail fuel v rest
    | none => none
def parseTermTail : ℕ → Frac → List Tok → Option (Frac × List Tok)
  | 0, _, _ => none
  | fuel + 1, acc, Tok.star :: ts =>
    match parseFactorF fuel ts with
    | some (v, rest) => parseTermTail fuel (acc.mul v) rest
    | none => none
  | fuel + 1, acc, Tok.slash :: ts =>
    match parseFactorF fuel ts with
    | some (v, rest) =>
        if v.num = 0 then none else parseTermTail fuel (acc.div v) rest
    | none => none
  | _ + 1, acc, ts => some (acc, ts)
def parseFactorF : ℕ → List Tok → Option (Frac × List Tok)
  | 0, _ => none
  | fuel + 1, Tok.minus :: ts => (parseFactorF fuel ts).map
      (fun p => (p.1.neg, p.2))
  | fuel + 1, Tok.plus :: ts => parseFactorF fuel ts
  | _ + 1, Tok.num q :: ts => some (q, ts)
  | fuel + 1, Tok.lparen :: ts =>
    match parseExprF fuel ts with
    | some (v, Tok.rparen :: rest) => some (v, rest)
    | _ => none
  | _, _ => none
end

/-- `eval` applied to a sanitized arithmetic string: lex, then parse a full
expression consuming every token. -/
def evalArith (s : String) : Option Frac :=
  match lexTokens (s.data.length + 1) s.data with
  | none => none
  | some toks =>
      match parseExprF (4 * toks.length + 4) toks with
      | some (v, []) => some v
      | _ => none

/-- The calculate tool handler (server.ts:91-103): sanitize, evaluate, and
answer `Result: ..` on success or the catch-branch error text. An empty
sanitized remainder has no arithmetic value (JavaScript: `undefined`) and
is modelled as evaluation failure. -/
def calculate (expression : String) : ToolResult :=
  match evalArith (sanitize expression) with
  | some r => .ok ("Result: " ++ r.repr)
  | none => .error ("Error: Could not evaluate expression \x27" ++
      expression ++ "\x27")

/-! #### The convert tool (server.ts:106-141) -/

def celsiusToFahrenheit (c : Frac) : Frac :=
  ((c.mul (Frac.ofInt 9)).div (Frac.ofInt 5)).add (Frac.ofInt 32)

def fahrenheitToCelsius (f : Frac) : Frac :=
  ((f.sub (Frac.ofInt 32)).mul (Frac.ofInt 5)).div (Frac.ofInt 9)

/-- The own entries of the `conversions` object literal (server.ts:115-122):
conversion function for a unit pair, or `none` when the pair has no own
entry. The factors 0.621371, 1.60934, 2.20462 and 0.453592 are exact
decimal fractions. This is only the own-entry part of the two-level
truthiness lookup `conversions[fromUnit] && conversions[fromUnit][toUnit]`
at server.ts:125, which can also hit truthy inherited `Object.prototype`
members; `convertJs` below models that full read. -/
def conversions (fromUnit toUnit : String) : Option (Frac → Frac) :=
  match fromUnit, toUnit with
  | "celsius", "fahrenheit" => some celsiusToFahrenheit
  | "fahrenheit", "celsius" => some fahrenheitToCelsius
  | "kilometers", "miles" => some (fun km => km.mul ⟨621371, 1000000⟩)
  | "miles", "kilometers" => some (fun mi => mi.mul ⟨160934, 100000⟩)
  | "kilograms", "pounds" => some (fun kg => kg.mul ⟨220462, 100000⟩)
  | "pounds", "kilograms" => some (fun lb => lb.mul ⟨453592, 1000000⟩)
  | _, _ => none

def pad4 (s : String) : String :=
  String.mk (List.replicate (4 - s.length) '0') ++ s

/-- `Number(result).toFixed(4)` (server.ts:127): fixed-point notation with
four fractional digits, rounding to nearest with ties away from zero, and a
leading minus sign for negative inputs, per the ECMAScript `toFixed`
algorithm. `⌊a/d + 1/2⌋ = (2a + d) / (2d)` in integer division for
`a ≥ 0 < d`. -/
def toFixed4 (f : Frac) : String :=
  let sign := if f.num * f.den < 0 then "-" else ""
  let a : Int := (f.num.natAbs : Int)
  let d : Int := (f.den.natAbs : Int)
  let n := ((a * 10000 * 2 + d) / (2 * d)).toNat
  sign ++ toString (n / 10000) ++ "." ++ pad4 (toString (n % 10000))

/-- The convert tool handler (server.ts:113-140): look the pair up in the
table; on a hit answer `value fromUnit = formatted toUnit`, otherwise the
not-supported error text. The handler returns in both branches and cannot
throw. -/
def convert (value : Frac) (fromUnit toUnit : String) : ToolResult :=
  match conversions fromUnit toUnit with
  | some f =>
      .ok (value.repr ++ " " ++ fromUnit ++ " = " ++ toFixed4 (f value) ++
        " " ++ toUnit)
  | none =>
      .error ("Error: Conversion from " ++ fromUnit ++ " to " ++ toUnit ++
        " is not supported.")

/-- The own keys of the `conversions` object literal. -/
def conversionUnits : List String :=
  ["celsius", "fahrenheit", "kilometers", "miles", "kilograms", "pounds"]

/-- The function members every plain object literal inherits from
`Object.prototype` (the legacy accessor members are excluded here: invoking
them throws inside the try of server.ts:124 and lands in the catch branch,
and no theorem evaluates them). -/
def protoFnProps : List String :=
  ["constructor", "hasOwnProperty", "isPrototypeOf", "propertyIsEnumerable",
    "toLocaleString", "toString", "valueOf"]

/-- `Number(result)` where `result` is what the inherited member returns
when invoked as `conversions[fromUnit][toUnit](value)` on the inner
conversion object: `toString` and `toLocaleString` return
"[object Object]" and `valueOf` the object itself, all coercing to NaN
(`none`); `hasOwnProperty`, `isPrototypeOf` and `propertyIsEnumerable`
return false, coercing to 0; `constructor` is `Object`, which boxes the
numeric argument. -/
def protoCallNumber (prop : String) (value : Frac) : Option Frac :=
  if prop = "hasOwnProperty" || prop = "isPrototypeOf" ||
      prop = "propertyIsEnumerable" then some ⟨0, 1⟩
  else if prop = "constructor" then some value
  else none

/-- The convert handler (server.ts:124-134) with the two-level lookup given
JavaScript property semantics: a `fromUnit` with an own entry and a
`toUnit` naming an inherited `Object.prototype` function member pass the
truthiness gate of server.ts:125, the inherited member is invoked as the
converter, and its result is coerced and formatted (NaN when non-numeric) —
ordinary content, not the not-supported error. Pairs outside the own
entries and this inherited case fall to the not-supported branch as in
`convert`. -/
def convertJs (value : Frac) (fromUnit toUnit : String) : ToolResult :=
  match conversions fromUnit toUnit with
  | some f =>
      .ok (value.repr ++ " " ++ fromUnit ++ " = " ++ toFixed4 (f value) ++
        " " ++ toUnit)
  | none =>
      if fromUnit ∈ conversionUnits && toUnit ∈ protoFnProps then
        .ok (value.repr ++ " " ++ fromUnit ++ " = " ++
          (match protoCallNumber toUnit value with
            | some q => toFixed4 q
            | none => "NaN") ++ " " ++ toUnit)
      else
        .error ("Error: Conversion from " ++ fromUnit ++ " to " ++ toUnit ++
          " is not supported.")

/-! ### Claims about the tools -/

/-- C6. Every character outside `- ( ) * + / 0-9 .` is stripped before
evaluation, so the evaluated string consists of arithmetic characters only
and no code beyond arithmetic can execute; in particular nothing of
"import os" survives sanitization. -/
theorem calculate_sanitizes :
    (∀ s : String, ∀ c ∈ (sanitize s).data, allowedChar c = true) ∧
    sanitize "import os" = "" := by
  constructor
  · intro s c hc
    simp only [sanitize] at hc
    exact (List.mem_filter.mp hc).2
  · decide

theorem calculate_sanitizes_witness :
    allowedChar '2' = true ∧ sanitize "import os" = "" :=
  ⟨calculate_sanitizes.1 "2a+2" '2' (by decide), calculate_sanitizes.2⟩

/-- C7. `calculate("2 + 2 * 3")` evaluates with multiplication binding
tighter than addition and answers the successful result 8. -/
theorem calculate_precedence :
    calculate "2 + 2 * 3" = .ok "Result: 8" ∧
    (evalArith (sanitize "2 + 2 * 3")).map Frac.val = some 8 := by
  constructor
  · decide
  · have h : evalArith (sanitize "2 + 2 * 3") = some ⟨8, 1⟩ := by decide
    rw [h]
    simp [Frac.val]

/-- C8. `convert(100, "celsius", "fahrenheit")` answers `212.0000` and
`convert(0, "fahrenheit", "celsius")` answers `-17.7778`, both formatted to
four decimal places. -/
theorem convert_temperature_values :
    convert ⟨100, 1⟩ "celsius" "fahrenheit" =
      .ok "100 celsius = 212.0000 fahrenheit" ∧
    convert ⟨0, 1⟩ "fahrenheit" "celsius" =
      .ok "0 fahrenheit = -17.7778 celsius" := by
  exact ⟨by decide, by decide⟩

/-- C9 fails on the code: the pair (celsius, toString) has no table entry,
yet `conversions["celsius"]["toString"]` is the truthy inherited
`Object.prototype.toString`, so server.ts:125-129 invokes it and answers
`1 celsius = NaN toString` as ordinary content — not the not-supported
error the claim requires for every pair without an entry. A pair hitting
neither an own entry nor an inherited member still gets the not-supported
text. -/
theorem convert_inherited_member_not_error :
    conversions "celsius" "toString" = none ∧
    convertJs ⟨1, 1⟩ "celsius" "toString" = .ok "1 celsius = NaN toString" ∧
    convertJs ⟨1, 1⟩ "celsius" "toString" ≠
      .error "Error: Conversion from celsius to toString is not supported." ∧
    convertJs ⟨1, 1⟩ "celsius" "kilometers" =
      .error "Error: Conversion from celsius to kilometers is not supported." :=
  ⟨rfl, by decide, by decide, by decide⟩

/-- C10. The celsius→fahrenheit and fahrenheit→celsius entries of the table
are exact mutual inverses on every rational value (every fraction with a
nonzero denominator). -/
theorem temperature_conversions_inverse (v : Frac) (h : (v.den : ℚ) ≠ 0) :
    (fahrenheitToCelsius (celsiusToFahrenheit v)).val = v.val ∧
    (celsiusToFahrenheit (fahrenheitToCelsius v)).val = v.val := by
  obtain ⟨n, d⟩ := v
  simp only [Frac.val, celsiusToFahrenheit, fahrenheitToCelsius, Frac.add,
    Frac.sub, Frac.mul, Frac.div, Frac.ofInt] at h ⊢
  push_cast
  constructor <;> (field_simp; ring)

theorem temperature_conversions_inverse_witness :
    (fahrenheitToCelsius (celsiusToFahrenheit ⟨1, 3⟩)).val = Frac.val ⟨1, 3⟩ ∧
    (celsiusToFahrenheit (fahrenheitToCelsius ⟨1, 3⟩)).val = Frac.val ⟨1, 3⟩ :=
  temperature_conversions_inverse ⟨1, 3⟩ (by norm_num)

end McpCalc
